import Mathlib

/-!
Formal model of the rac-pro timer utility.

The repository holds two near-identical Rust variants of one interactive
Windows program:

* `src/src/main.rs` — modelled here with the suffix `_src`;
* `src/racpro/src/main.rs` — modelled here with the suffix `_rac`.

The program only wraps a handful of operating-system calls (multimedia timer
period begin/end, timer-capability query, a dynamically resolved resolution
query, performance-counter sampling, a named mutex, a token-elevation check)
around a blocking menu loop.  We model one run of each function as a pure
Lean function from an *oracle* — a record fixing the outcome of every OS call
the function may make — to the list of externally visible events (OS calls
with their outcomes, printed lines, reads from standard input) plus the
function's return value.  Machine integers (`u32`) are modelled as `Nat`
(no arithmetic in the program can overflow or wrap: the only arithmetic on
`u32` values is comparison), and the `f64` elapsed-time arithmetic is
modelled exactly over `ℚ`.
-/

/-- An externally visible event of one program run: an OS call together with
its outcome, a printed line, or a read from standard input. -/
inductive Ev : Type
  /-- `CreateMutexW` on the fixed global name; `ok` is whether the call
  succeeded, `alreadyExists` whether `GetLastError` reports
  `ERROR_ALREADY_EXISTS`. -/
  | createMutex (ok alreadyExists : Bool)
  /-- `CloseHandle` on a held handle (token handle or mutex handle). -/
  | closeHandle
  /-- `OpenProcessToken`. -/
  | openToken (ok : Bool)
  /-- `GetTokenInformation` for `TokenElevation`. -/
  | queryToken (ok : Bool)
  /-- `timeGetDevCaps`. -/
  | getDevCaps (ok : Bool)
  /-- `timeBeginPeriod period`. -/
  | timeBegin (period : Nat) (ok : Bool)
  /-- `timeEndPeriod period`. -/
  | timeEnd (period : Nat) (ok : Bool)
  /-- `LoadLibraryW "NtDll.dll"` (or the `libloading` re-load in the
  racpro variant); `handle` numbers the handles created inside one
  `measure` call. -/
  | loadLib (handle : Nat) (ok : Bool)
  /-- Resolution of the `NtQueryTimerResolution` entry point. -/
  | getProc (ok : Bool)
  /-- `QueryPerformanceFrequency`. -/
  | qpf (ok : Bool)
  /-- One call of the resolved `NtQueryTimerResolution` pointer. -/
  | ntQuery (ok : Bool)
  /-- `QueryPerformanceCounter`. -/
  | qpc
  /-- `Sleep ms`. -/
  | sleepMs (ms : Nat)
  /-- `FreeLibrary` on the numbered handle. -/
  | freeLib (handle : Nat)
  /-- A line printed to standard output. -/
  | print (s : String)
  /-- The `Average over {} iterations: ...` report, with the numbers the
  program formats: iteration count, average elapsed ms, and the three
  resolution values already divided by 10000. -/
  | printAvg (iters : Nat) (avg cur minv maxv : ℚ)
  /-- One (attempted) read of a line from standard input. -/
  | readLine (ok : Bool)
  /-- The `clear_console` screen clear. -/
  | clearScreen
  deriving DecidableEq

/-- How a run of `main` ends: normal process exit, a panic
(`expect` / `unwrap` firing), or still blocked waiting for more input than
the supplied script provides. -/
inductive Outcome : Type
  | exited
  | panicked
  | blocked
  deriving DecidableEq

/-- The five menu branches of the dispatch `match`. -/
inductive MenuChoice : Type
  | setC
  | meas
  | close
  | reset
  | invalid
  deriving DecidableEq

/-- The printed lines of a trace, in order. -/
def printsOf : List Ev → List String
  | [] => []
  | Ev.print s :: rest => s :: printsOf rest
  | _ :: rest => printsOf rest

/-- Events that are OS timer calls (period begin/end, capability query,
or any call belonging to the measurement path). -/
def isTimerEv : Ev → Bool
  | Ev.timeBegin _ _ => true
  | Ev.timeEnd _ _ => true
  | Ev.getDevCaps _ => true
  | Ev.loadLib _ _ => true
  | Ev.getProc _ => true
  | Ev.qpf _ => true
  | Ev.ntQuery _ => true
  | Ev.qpc => true
  | Ev.sleepMs _ => true
  | Ev.freeLib _ => true
  | _ => false

/-- `timeBeginPeriod` events. -/
def isBeginEv : Ev → Bool
  | Ev.timeBegin _ _ => true
  | _ => false

/-- The average-report event. -/
def isAvgEv : Ev → Bool
  | Ev.printAvg _ _ _ _ _ => true
  | _ => false

/-- `Sleep` events (one per measurement round). -/
def isSleepEv : Ev → Bool
  | Ev.sleepMs _ => true
  | _ => false

/-- `FreeLibrary` events for a given handle number. -/
def isFreeLibEv (h : Nat) : Ev → Bool
  | Ev.freeLib h2 => h == h2
  | _ => false

/-- Clamp `t` into the interval `[lo, hi]`. -/
def clampNat (lo hi t : Nat) : Nat := max lo (min t hi)

/-- The Unicode White_Space set, exactly what Rust `char::is_whitespace`
matches: U+0009..U+000D, U+0020, U+0085, U+00A0, U+1680, U+2000..U+200A,
U+2028, U+2029, U+202F, U+205F, U+3000. -/
def isWsChar (c : Char) : Bool :=
  c == '\t' || c == '\n' || c == '\u000B' || c == '\u000C' || c == '\r' ||
  c == ' ' || c == '\u0085' || c == '\u00A0' || c == '\u1680' ||
  (0x2000 ≤ c.toNat && c.toNat ≤ 0x200A) ||
  c == '\u2028' || c == '\u2029' || c == '\u202F' || c == '\u205F' || c == '\u3000'

/-- Model of Rust `str::trim`: drop leading and trailing Unicode whitespace.
Defined over the character list so that it evaluates inside the kernel. -/
def trimStr (s : String) : String :=
  String.mk (((s.toList.dropWhile isWsChar).reverse.dropWhile isWsChar).reverse)

/-- Oracle for one `set_custom` run: outcome and values of `timeGetDevCaps`,
and the outcome of the single `timeBeginPeriod` call it makes. -/
structure SetCustomWorld : Type where
  capsOk : Bool
  capsMin : Nat
  capsMax : Nat
  beginOk : Bool
  deriving DecidableEq

/-- `get_caps` (identical in both variants): query `timeGetDevCaps`, return
`(wPeriodMin, wPeriodMax)` on success. -/
def get_caps (o : SetCustomWorld) : List Ev × Option (Nat × Nat) :=
  if o.capsOk then ([Ev.getDevCaps true], some (o.capsMin, o.capsMax))
  else ([Ev.getDevCaps false], none)

/-- `set_custom` from `src/src/main.rs`: target fixed at 1; clamp into the
capability range, printing the branch taken; the `timeBeginPeriod` return
value is discarded in all three branches. -/
def set_custom_src (o : SetCustomWorld) : List Ev × Bool :=
  match get_caps o with
  | (evs, some (mn, mx)) =>
      (evs ++
        (if 1 < mn then
          [Ev.print ("System minimum is higher than 1ms (" ++ toString mn ++ "ms)"),
           Ev.print ("Setting to system minimum: " ++ toString mn ++ "ms"),
           Ev.timeBegin mn o.beginOk]
        else if mx < 1 then
          [Ev.print ("1ms exceeds system maximum (" ++ toString mx ++ "ms)"),
           Ev.print ("Setting to system maximum: " ++ toString mx ++ "ms"),
           Ev.timeBegin mx o.beginOk]
        else
          [Ev.timeBegin 1 o.beginOk, Ev.print "SC set to: 1ms"]),
       true)
  | (evs, none) => (evs ++ [Ev.print "Failed to set."], false)

/-- `set_custom` from `src/racpro/src/main.rs` (textually identical logic). -/
def set_custom_rac (o : SetCustomWorld) : List Ev × Bool :=
  match get_caps o with
  | (evs, some (mn, mx)) =>
      (evs ++
        (if 1 < mn then
          [Ev.print ("System minimum is higher than 1ms (" ++ toString mn ++ "ms)"),
           Ev.print ("Setting to system minimum: " ++ toString mn ++ "ms"),
           Ev.timeBegin mn o.beginOk]
        else if mx < 1 then
          [Ev.print ("1ms exceeds system maximum (" ++ toString mx ++ "ms)"),
           Ev.print ("Setting to system maximum: " ++ toString mx ++ "ms"),
           Ev.timeBegin mx o.beginOk]
        else
          [Ev.timeBegin 1 o.beginOk, Ev.print "SC set to: 1ms"]),
       true)
  | (evs, none) => (evs ++ [Ev.print "Failed to set."], false)

/-- Oracle for one `reset_to_default` run. -/
structure ResetWorld : Type where
  endOk : Bool
  beginOk : Bool
  deriving DecidableEq

/-- `reset_to_default` from `src/src/main.rs`: `timeEndPeriod(1)` (result
discarded), then `timeBeginPeriod(16)`; success is decided by the begin call
alone. -/
def reset_to_default_src (o : ResetWorld) : List Ev × Bool :=
  (Ev.timeEnd 1 o.endOk ::
    (if o.beginOk then
      [Ev.timeBegin 16 true, Ev.print "Successfully reset to default (~15.6ms)"]
    else
      [Ev.timeBegin 16 false, Ev.print "Failed to reset to default"]),
   o.beginOk)

/-- `reset_to_default` from `src/racpro/src/main.rs` (identical logic). -/
def reset_to_default_rac (o : ResetWorld) : List Ev × Bool :=
  (Ev.timeEnd 1 o.endOk ::
    (if o.beginOk then
      [Ev.timeBegin 16 true, Ev.print "Successfully reset to default (~15.6ms)"]
    else
      [Ev.timeBegin 16 false, Ev.print "Failed to reset to default"]),
   o.beginOk)

/-- A `set_custom` oracle with a failing `timeBeginPeriod`: capabilities
1..1000000, begin call fails. -/
def scSwallow : SetCustomWorld := ⟨true, 1, 1000000, false⟩

/-- Oracle for one `measure` run: outcome of the library load (NtDll.dll is
either loadable in the current process or not, so the racpro variant's second
load through `libloading` succeeds exactly when the first did), outcome of
the entry-point resolution, outcome and value of
`QueryPerformanceFrequency`, per-round outcomes of the resolution query,
the performance-counter readings by call index, and the status of the final
resolution query together with the values its out-variables hold afterwards
(the code zero-initialises them and never checks this status). -/
structure MeasureWorld : Type where
  loadOk : Bool
  procOk : Bool
  qpfOk : Bool
  freq : ℚ
  ntOk : Nat → Bool
  cnt : Nat → ℚ
  finalNtOk : Bool
  finalCur : Nat
  finalMin : Nat
  finalMax : Nat

/-- Elapsed wall time of round `i` in ms, `(end - start) / freq * 1000`,
where round `i` uses counter readings `2i` and `2i+1`. -/
def elapsedMs (o : MeasureWorld) (fr : ℚ) (i : Nat) : ℚ :=
  (o.cnt (2 * i + 1) - o.cnt (2 * i)) / fr * 1000

/-- The OS calls of one successful measurement round: resolution query,
counter sample, 1ms sleep, counter sample. -/
def roundEvs : List Ev := [Ev.ntQuery true, Ev.qpc, Ev.sleepMs 1, Ev.qpc]

/-- The measurement loop: run the given number of rounds starting at round
index `i` with accumulator `total`; on a failing resolution query print the
failure message, emit `failTail` (the library release of the variant), and
abort with no total. -/
def measureRounds (ntOk : Nat → Bool) (el : Nat → ℚ) (failTail : List Ev) :
    Nat → Nat → ℚ → List Ev × Option ℚ
  | 0, _, total => ([], some total)
  | k + 1, i, total =>
    if ntOk i then
      let r := measureRounds ntOk el failTail k (i + 1) (total + el i)
      (roundEvs ++ r.1, r.2)
    else
      ([Ev.ntQuery false, Ev.print "NtQueryTimerResolution failed"] ++ failTail, none)

/-- The final `Average over {} iterations: ...` line with the numbers the
program formats: average elapsed ms and the three resolutions divided
by 10000. -/
def avgReport (iterations : Nat) (total : ℚ) (o : MeasureWorld) : Ev :=
  Ev.printAvg iterations (total / (iterations : ℚ))
    ((o.finalCur : ℚ) / 10000) ((o.finalMin : ℚ) / 10000) ((o.finalMax : ℚ) / 10000)

/-- `measure` from `src/src/main.rs`: load NtDll.dll, resolve
`NtQueryTimerResolution`, check `QueryPerformanceFrequency`, run the rounds,
make one final (unchecked) resolution query, report, and free the library;
each failure prints its message, frees the library if it was loaded, and
returns. -/
def measure_src (o : MeasureWorld) (iterations : Nat) : List Ev :=
  if o.loadOk then
    Ev.loadLib 0 true ::
    (if o.procOk then
      Ev.getProc true ::
      (if o.qpfOk then
        Ev.qpf true ::
        (let r := measureRounds o.ntOk (elapsedMs o o.freq) [Ev.freeLib 0] iterations 0 0
         r.1 ++
          (match r.2 with
           | none => []
           | some total => [Ev.ntQuery o.finalNtOk, avgReport iterations total o, Ev.freeLib 0]))
      else [Ev.qpf false, Ev.print "QueryPerformanceFrequency failed", Ev.freeLib 0])
    else [Ev.getProc false, Ev.print "Failed to load NtQueryTimerResolution", Ev.freeLib 0])
  else [Ev.loadLib 0 false, Ev.print "LoadLibrary failed"]

/-- `measure` from `src/racpro/src/main.rs`: it loads the library a second
time through `libloading` (handle 1, released by that handle's scope-exit
drop on every path out of the function), never checks
`QueryPerformanceFrequency` (a failed query leaves the zero-initialised
frequency, so the elapsed division uses 0), and otherwise mirrors the src
variant. -/
def measure_rac (o : MeasureWorld) (iterations : Nat) : List Ev :=
  if o.loadOk then
    Ev.loadLib 0 true :: Ev.loadLib 1 true ::
    (if o.procOk then
      Ev.getProc true :: Ev.qpf o.qpfOk ::
      (let fr : ℚ := if o.qpfOk then o.freq else 0
       let r := measureRounds o.ntOk (elapsedMs o fr) [Ev.freeLib 0, Ev.freeLib 1] iterations 0 0
       r.1 ++
        (match r.2 with
         | none => []
         | some total =>
            [Ev.ntQuery o.finalNtOk, avgReport iterations total o, Ev.freeLib 0, Ev.freeLib 1]))
    else [Ev.getProc false, Ev.print "Failed to load NtQueryTimerResolution",
          Ev.freeLib 0, Ev.freeLib 1])
  else [Ev.loadLib 0 false, Ev.print "LoadLibrary failed"]

/-- A measurement oracle where every OS call succeeds. -/
def mwAllOk : MeasureWorld :=
  ⟨true, true, true, 1, fun _ => true, fun _ => 0, true, 0, 0, 0⟩

/-- A measurement oracle where only `QueryPerformanceFrequency` fails. -/
def mwNoQpf : MeasureWorld := { mwAllOk with qpfOk := false }

/-- A measurement oracle where every resolution query fails. -/
def mwNtFail : MeasureWorld := { mwAllOk with ntOk := fun _ => false }

/-- Oracle for the startup phase of `main`: outcome of `CreateMutexW`,
whether the named mutex already existed, the startup `Press Enter to
exit...` reads, and the elevation-check calls. -/
structure StartWorld : Type where
  mutexOk : Bool
  alreadyExists : Bool
  read1Ok : Bool
  openOk : Bool
  queryOk : Bool
  elevatedBit : Bool
  read2Ok : Bool
  deriving DecidableEq

/-- One round of the menu loop: the line read at the menu prompt (`none`
models a read failure), the oracles of the action the line may dispatch to,
and the outcome of the pacing `Press Enter to continue...` read. -/
structure MenuRound : Type where
  menuLine : Option String
  sc : SetCustomWorld
  ms : MeasureWorld
  rst : ResetWorld
  pacingOk : Bool

/-- `is_running_as_admin` from `src/src/main.rs`: open the process token,
query elevation, close the token handle; any failure yields `false`. -/
def is_running_as_admin_src (w : StartWorld) : List Ev × Bool :=
  if w.openOk then
    ([Ev.openToken true, Ev.queryToken w.queryOk, Ev.closeHandle],
     if w.queryOk then w.elevatedBit else false)
  else ([Ev.openToken false], false)

/-- `is_running_as_admin` from `src/racpro/src/main.rs`: same checks, but
the token handle is never closed. -/
def is_running_as_admin_rac (w : StartWorld) : List Ev × Bool :=
  if w.openOk then
    ([Ev.openToken true, Ev.queryToken w.queryOk],
     if w.queryOk then w.elevatedBit else false)
  else ([Ev.openToken false], false)

/-- `create_app_mutex` from `src/src/main.rs`: `None` (modelled as `false`)
on a failed `CreateMutexW` or when the mutex already existed. -/
def create_app_mutex_src (w : StartWorld) : List Ev × Bool :=
  ([Ev.createMutex w.mutexOk w.alreadyExists],
   if w.mutexOk = false then false else if w.alreadyExists then false else true)

/-- `create_app_mutex` from `src/racpro/src/main.rs`: the call's own result
is never checked, only `GetLastError` is consulted. -/
def create_app_mutex_rac (w : StartWorld) : List Ev × Bool :=
  ([Ev.createMutex w.mutexOk w.alreadyExists],
   if w.alreadyExists then false else true)

/-- The menu dispatch of `src/src/main.rs`: `match input.trim()`. -/
def dispatch_src (line : String) : MenuChoice :=
  match trimStr line with
  | "1" => MenuChoice.setC
  | "2" => MenuChoice.meas
  | "3" => MenuChoice.close
  | "4" => MenuChoice.reset
  | _ => MenuChoice.invalid

/-- The menu dispatch of `src/racpro/src/main.rs` (identical). -/
def dispatch_rac (line : String) : MenuChoice :=
  match trimStr line with
  | "1" => MenuChoice.setC
  | "2" => MenuChoice.meas
  | "3" => MenuChoice.close
  | "4" => MenuChoice.reset
  | _ => MenuChoice.invalid

/-- The screen clear and menu lines printed at the top of every loop
iteration (identical in both variants). -/
def menuHeader : List Ev :=
  [Ev.clearScreen,
   Ev.print "1. Set to 1ms (if supported)",
   Ev.print "2. Measure",
   Ev.print "3. Close",
   Ev.print "4. Reset to default (~15.6ms)",
   Ev.print "Select an option (1-4): "]

/-- The lines printed when another instance already holds the mutex. -/
def alreadyRunningMsgs : List Ev :=
  [Ev.print "Another instance of this application is already running.",
   Ev.print "Please close the other instance first.",
   Ev.print "Press Enter to exit..."]

/-- The lines printed when the elevation check fails. -/
def adminMsgs : List Ev :=
  [Ev.print "This application requires administrator privileges.",
   Ev.print "Please restart the program as administrator.",
   Ev.print "Press Enter to exit..."]

/-- The menu loop of `src/src/main.rs`: read a line (a failed read fires
`expect`, a panic), dispatch on the trimmed line, and on every non-exit
branch print the pacing prompt and read one more line whose failure is
ignored. -/
def main_loop_src : List MenuRound → List Ev × Outcome
  | [] => ([], Outcome.blocked)
  | r :: rs =>
    match r.menuLine with
    | none => (menuHeader ++ [Ev.readLine false], Outcome.panicked)
    | some line =>
      match dispatch_src line with
      | MenuChoice.close =>
          (menuHeader ++ [Ev.readLine true] ++ [Ev.print "Closing application..."],
           Outcome.exited)
      | c =>
          let acts : List Ev :=
            match c with
            | MenuChoice.setC => (set_custom_src r.sc).1
            | MenuChoice.meas => measure_src r.ms 100
            | MenuChoice.reset => (reset_to_default_src r.rst).1
            | _ => [Ev.print "Invalid option! Please select 1, 2, 3, or 4."]
          let rest := main_loop_src rs
          (menuHeader ++ [Ev.readLine true] ++
            (acts ++ [Ev.print "Press Enter to continue...", Ev.readLine r.pacingOk]) ++
            rest.1,
           rest.2)

/-- The menu loop of `src/racpro/src/main.rs`: identical dispatch, but the
pacing read is `unwrap`ped, so its failure panics. -/
def main_loop_rac : List MenuRound → List Ev × Outcome
  | [] => ([], Outcome.blocked)
  | r :: rs =>
    match r.menuLine with
    | none => (menuHeader ++ [Ev.readLine false], Outcome.panicked)
    | some line =>
      match dispatch_rac line with
      | MenuChoice.close =>
          (menuHeader ++ [Ev.readLine true] ++ [Ev.print "Closing application..."],
           Outcome.exited)
      | c =>
          let acts : List Ev :=
            match c with
            | MenuChoice.setC => (set_custom_rac r.sc).1
            | MenuChoice.meas => measure_rac r.ms 100
            | MenuChoice.reset => (reset_to_default_rac r.rst).1
            | _ => [Ev.print "Invalid option! Please select 1, 2, 3, or 4."]
          if r.pacingOk then
            let rest := main_loop_rac rs
            (menuHeader ++ [Ev.readLine true] ++
              (acts ++ [Ev.print "Press Enter to continue...", Ev.readLine true]) ++
              rest.1,
             rest.2)
          else
            (menuHeader ++ [Ev.readLine true] ++
              (acts ++ [Ev.print "Press Enter to continue...", Ev.readLine false]),
             Outcome.panicked)

/-- `main` from `src/src/main.rs`: single-instance guard (the startup read
failure is ignored), elevation guard (read failure ignored), then the loop;
the held mutex handle is closed by its drop on every exit path out of the
loop. -/
def main_src (w : StartWorld) (rounds : List MenuRound) : List Ev × Outcome :=
  let mu := create_app_mutex_src w
  if mu.2 = false then
    (mu.1 ++ alreadyRunningMsgs ++ [Ev.readLine w.read1Ok], Outcome.exited)
  else
    let adm := is_running_as_admin_src w
    if adm.2 = false then
      (mu.1 ++ adm.1 ++ adminMsgs ++ [Ev.readLine w.read2Ok, Ev.closeHandle],
       Outcome.exited)
    else
      let lp := main_loop_src rounds
      (mu.1 ++ adm.1 ++ lp.1 ++
        (if lp.2 = Outcome.blocked then [] else [Ev.closeHandle]), lp.2)

/-- `main` from `src/racpro/src/main.rs`: the startup reads are `unwrap`ped,
so their failure panics (the mutex handle, when held, is still closed by its
drop during unwinding). -/
def main_rac (w : StartWorld) (rounds : List MenuRound) : List Ev × Outcome :=
  let mu := create_app_mutex_rac w
  if mu.2 = false then
    if w.read1Ok then
      (mu.1 ++ alreadyRunningMsgs ++ [Ev.readLine true], Outcome.exited)
    else
      (mu.1 ++ alreadyRunningMsgs ++ [Ev.readLine false], Outcome.panicked)
  else
    let adm := is_running_as_admin_rac w
    if adm.2 = false then
      if w.read2Ok then
        (mu.1 ++ adm.1 ++ adminMsgs ++ [Ev.readLine true, Ev.closeHandle],
         Outcome.exited)
      else
        (mu.1 ++ adm.1 ++ adminMsgs ++ [Ev.readLine false, Ev.closeHandle],
         Outcome.panicked)
    else
      let lp := main_loop_rac rounds
      (mu.1 ++ adm.1 ++ lp.1 ++
        (if lp.2 = Outcome.blocked then [] else [Ev.closeHandle]), lp.2)

/-- A startup oracle where everything succeeds. -/
def wOk : StartWorld := ⟨true, false, true, true, true, true, true⟩

/-- A startup oracle where the named mutex already exists. -/
def wAlready : StartWorld := { wOk with alreadyExists := true }

/-- A menu round with an unrecognised line. -/
def rInvalid : MenuRound := ⟨some "abc", scSwallow, mwAllOk, ⟨true, true⟩, true⟩

/-- A menu round choosing reset whose pacing read fails. -/
def rPaceFail : MenuRound := ⟨some "4", scSwallow, mwAllOk, ⟨true, true⟩, false⟩

/-- A menu round whose menu-prompt read fails. -/
def rMenuFail : MenuRound := ⟨none, scSwallow, mwAllOk, ⟨true, true⟩, true⟩

/-- Helper: head of an append with a nonempty left part. -/
theorem headQ_append {α : Type} (l1 l2 : List α) (h : l1 ≠ []) :
    (l1 ++ l2).head? = l1.head? := by
  cases l1 with
  | nil => exact absurd rfl h
  | cons a t => rfl

/-- Helper: a string differs from `pre ++ mid ++ suf` whenever their first
characters differ, whatever `mid` is. -/
theorem ne_prefixed (t pre mid suf : String)
    (h : pre.data.head? ≠ t.data.head?) (hpre : pre.data ≠ []) :
    t ≠ pre ++ mid ++ suf := by
  intro he
  apply h
  have hdata : (pre ++ mid ++ suf).data = pre.data ++ (mid.data ++ suf.data) := by
    show (pre.data ++ mid.data) ++ suf.data = _
    exact List.append_assoc _ _ _
  calc pre.data.head? = (pre ++ mid ++ suf).data.head? := by
        rw [hdata, headQ_append _ _ hpre]
    _ = t.data.head? := by rw [← he]

/-- Helper: membership in a join of replicated lists. -/
theorem mem_join_replicate {e : Ev} {k : Nat} {l : List Ev}
    (h : e ∈ (List.replicate k l).join) : e ∈ l := by
  rcases List.mem_join.1 h with ⟨m, hm, he⟩
  rw [List.eq_of_mem_replicate hm] at he
  exact he

/-- Helper: counting inside a join of replicated lists. -/
theorem countP_join_replicate (p : Ev → Bool) (k : Nat) (l : List Ev) :
    ((List.replicate k l).join).countP p = k * l.countP p := by
  induction k with
  | zero => simp
  | succ k ih =>
      simp only [List.replicate_succ, List.join_cons, List.countP_append, ih]
      ring

/-- Helper: a measurement round contains no `FreeLibrary` call. -/
theorem roundEvs_noFree (h : Nat) : roundEvs.countP (isFreeLibEv h) = 0 := by
  simp [roundEvs, List.countP_cons, isFreeLibEv]

/-- Helper: a measurement round contains no average report. -/
theorem roundEvs_noAvg : roundEvs.countP isAvgEv = 0 := by
  simp [roundEvs, List.countP_cons, isAvgEv]

/-- Helper: a measurement round contains exactly one `Sleep` call. -/
theorem roundEvs_oneSleep : roundEvs.countP isSleepEv = 1 := by
  simp [roundEvs, List.countP_cons, isSleepEv]

/-- Helper: the measurement loop when every queried round succeeds. -/
theorem measureRounds_ok (ntOk : Nat → Bool) (el : Nat → ℚ) (t : List Ev) :
    ∀ (k i : Nat) (total : ℚ), (∀ l, l < k → ntOk (i + l) = true) →
      measureRounds ntOk el t k i total =
        ((List.replicate k roundEvs).join,
         some (total + ∑ l ∈ Finset.range k, el (i + l))) := by
  intro k
  induction k with
  | zero => intro i total _; simp [measureRounds]
  | succ k ih =>
      intro i total h
      have h0 : ntOk i = true := by simpa using h 0 (Nat.succ_pos k)
      have hpre : ∀ l, l < k → ntOk (i + 1 + l) = true := by
        intro l hl
        have h2 := h (l + 1) (by omega)
        rw [show i + (l + 1) = i + 1 + l by omega] at h2
        exact h2
      have hsum : total + el i + ∑ l ∈ Finset.range k, el (i + 1 + l)
          = total + ∑ l ∈ Finset.range (k + 1), el (i + l) := by
        have hshift : ∑ l ∈ Finset.range k, el (i + (l + 1))
            = ∑ l ∈ Finset.range k, el (i + 1 + l) :=
          Finset.sum_congr rfl (fun l _ => by rw [show i + (l + 1) = i + 1 + l by omega])
        have hzero : el (i + 0) = el i := by rw [Nat.add_zero]
        rw [Finset.sum_range_succ', hshift, hzero, add_right_comm, add_assoc]
      simp only [measureRounds, h0, if_true]
      rw [ih (i + 1) (total + el i) hpre]
      simp [List.replicate_succ, hsum]

/-- Helper: the measurement loop when the query of relative round `j`
(zero-based) fails and every earlier round succeeded. -/
theorem measureRounds_fail (ntOk : Nat → Bool) (el : Nat → ℚ) (t : List Ev) :
    ∀ (j k i : Nat) (total : ℚ), j < k → (∀ l, l < j → ntOk (i + l) = true) →
      ntOk (i + j) = false →
      measureRounds ntOk el t k i total =
        ((List.replicate j roundEvs).join ++
          ([Ev.ntQuery false, Ev.print "NtQueryTimerResolution failed"] ++ t), none) := by
  intro j
  induction j with
  | zero =>
      intro k i total hjk _ hj
      obtain ⟨k2, rfl⟩ : ∃ k2, k = k2 + 1 := ⟨k - 1, by omega⟩
      have h0 : ntOk i = false := by simpa using hj
      simp [measureRounds, h0]
  | succ j ih =>
      intro k i total hjk hpre hj
      obtain ⟨k2, rfl⟩ : ∃ k2, k = k2 + 1 := ⟨k - 1, by omega⟩
      have h0 : ntOk i = true := by simpa using hpre 0 (Nat.succ_pos j)
      have hpre2 : ∀ l, l < j → ntOk (i + 1 + l) = true := by
        intro l hl
        have h2 := hpre (l + 1) (by omega)
        rw [show i + (l + 1) = i + 1 + l by omega] at h2
        exact h2
      have hj2 : ntOk (i + 1 + j) = false := by
        rw [show i + 1 + j = i + (j + 1) by omega]
        exact hj
      simp only [measureRounds, h0, if_true]
      rw [ih k2 (i + 1) (total + el i) (by omega) hpre2 hj2]
      simp [List.replicate_succ, List.append_assoc]

/-- C1: with a successful capability query and `min ≤ max`, `set_custom`
requests exactly `clamp(1, min, max)` in a single `timeBeginPeriod` call and
prints exactly the messages of the branch taken (below-min clamp, above-max
clamp, or exact set); the two variants agree. -/
theorem set_custom_clamps (o : SetCustomWorld)
    (hok : o.capsOk = true) (hle : o.capsMin ≤ o.capsMax) :
    (set_custom_src o).2 = true ∧
    (set_custom_src o).1.filter isBeginEv
      = [Ev.timeBegin (clampNat o.capsMin o.capsMax 1) o.beginOk] ∧
    (1 < o.capsMin →
      printsOf (set_custom_src o).1
        = ["System minimum is higher than 1ms (" ++ toString o.capsMin ++ "ms)",
           "Setting to system minimum: " ++ toString o.capsMin ++ "ms"]) ∧
    (o.capsMax < 1 →
      printsOf (set_custom_src o).1
        = ["1ms exceeds system maximum (" ++ toString o.capsMax ++ "ms)",
           "Setting to system maximum: " ++ toString o.capsMax ++ "ms"]) ∧
    (o.capsMin ≤ 1 → 1 ≤ o.capsMax →
      printsOf (set_custom_src o).1 = ["SC set to: 1ms"]) ∧
    set_custom_rac o = set_custom_src o := by
  have hrac : set_custom_rac o = set_custom_src o := by
    unfold set_custom_rac set_custom_src
    rfl
  by_cases h1 : 1 < o.capsMin
  · have htr : set_custom_src o =
        ([Ev.getDevCaps true,
          Ev.print ("System minimum is higher than 1ms (" ++ toString o.capsMin ++ "ms)"),
          Ev.print ("Setting to system minimum: " ++ toString o.capsMin ++ "ms"),
          Ev.timeBegin o.capsMin o.beginOk], true) := by
      simp [set_custom_src, get_caps, hok, h1]
    have hc : clampNat o.capsMin o.capsMax 1 = o.capsMin := by
      unfold clampNat; omega
    refine ⟨by rw [htr], ?_, fun _ => by rw [htr]; simp [printsOf],
        fun h2 => by omega, fun hmin _ => by omega, hrac⟩
    rw [htr, hc]
    simp [List.filter, isBeginEv]
  · by_cases h2 : o.capsMax < 1
    · have htr : set_custom_src o =
          ([Ev.getDevCaps true,
            Ev.print ("1ms exceeds system maximum (" ++ toString o.capsMax ++ "ms)"),
            Ev.print ("Setting to system maximum: " ++ toString o.capsMax ++ "ms"),
            Ev.timeBegin o.capsMax o.beginOk], true) := by
        simp [set_custom_src, get_caps, hok, h1, h2]
      have hc : clampNat o.capsMin o.capsMax 1 = o.capsMax := by
        unfold clampNat; omega
      refine ⟨by rw [htr], ?_, fun hmin => by omega,
          fun _ => by rw [htr]; simp [printsOf], fun _ hmax => by omega, hrac⟩
      rw [htr, hc]
      simp [List.filter, isBeginEv]
    · have htr : set_custom_src o =
          ([Ev.getDevCaps true, Ev.timeBegin 1 o.beginOk, Ev.print "SC set to: 1ms"], true) := by
        simp [set_custom_src, get_caps, hok, h1, h2]
      have hc : clampNat o.capsMin o.capsMax 1 = 1 := by
        unfold clampNat; omega
      refine ⟨by rw [htr], ?_, fun hmin => by omega, fun hmax => by omega,
          fun _ _ => by rw [htr]; simp [printsOf], hrac⟩
      rw [htr, hc]
      simp [List.filter, isBeginEv]

/-- Witness for C1 at a concrete oracle (caps 1..1000000). -/
theorem set_custom_clamps_witness :
    (set_custom_src scSwallow).2 = true ∧
    (set_custom_src scSwallow).1.filter isBeginEv
      = [Ev.timeBegin (clampNat scSwallow.capsMin scSwallow.capsMax 1) scSwallow.beginOk] ∧
    (1 < scSwallow.capsMin →
      printsOf (set_custom_src scSwallow).1
        = ["System minimum is higher than 1ms (" ++ toString scSwallow.capsMin ++ "ms)",
           "Setting to system minimum: " ++ toString scSwallow.capsMin ++ "ms"]) ∧
    (scSwallow.capsMax < 1 →
      printsOf (set_custom_src scSwallow).1
        = ["1ms exceeds system maximum (" ++ toString scSwallow.capsMax ++ "ms)",
           "Setting to system maximum: " ++ toString scSwallow.capsMax ++ "ms"]) ∧
    (scSwallow.capsMin ≤ 1 → 1 ≤ scSwallow.capsMax →
      printsOf (set_custom_src scSwallow).1 = ["SC set to: 1ms"]) ∧
    set_custom_rac scSwallow = set_custom_src scSwallow :=
  set_custom_clamps scSwallow (by decide) (by decide)

/-- C5: `reset_to_default` issues `timeEndPeriod(1)` immediately before the
`timeBeginPeriod(16)` call, returns exactly the begin call's success, prints
the success message exactly when the begin call succeeded, and neither its
return value nor its prints depend on the end call's outcome; the variants
agree. -/
theorem reset_orders_end_before_begin (o : ResetWorld) :
    (∃ s, (reset_to_default_src o).1
        = [Ev.timeEnd 1 o.endOk, Ev.timeBegin 16 o.beginOk, Ev.print s]) ∧
    (reset_to_default_src o).2 = o.beginOk ∧
    ((reset_to_default_src o).2 = true ↔
      Ev.print "Successfully reset to default (~15.6ms)" ∈ (reset_to_default_src o).1) ∧
    ((reset_to_default_src o).2 = false ↔
      Ev.print "Failed to reset to default" ∈ (reset_to_default_src o).1) ∧
    (∀ b, (reset_to_default_src { o with endOk := b }).2 = (reset_to_default_src o).2 ∧
       printsOf (reset_to_default_src { o with endOk := b }).1
         = printsOf (reset_to_default_src o).1) ∧
    reset_to_default_rac o = reset_to_default_src o := by
  cases hb : o.beginOk <;>
    simp [reset_to_default_src, reset_to_default_rac, printsOf, hb]

/-- C10: whenever the capability query succeeds, `set_custom` returns `true`
and prints only success/clamp messages, entirely independently of whether the
`timeBeginPeriod` request succeeded — the begin call's result is never
inspected. -/
theorem set_custom_ignores_begin_result (o : SetCustomWorld) (b : Bool)
    (hok : o.capsOk = true) :
    (set_custom_src o).2 = true ∧
    (set_custom_src { o with beginOk := b }).2 = true ∧
    printsOf (set_custom_src { o with beginOk := b }).1
      = printsOf (set_custom_src o).1 ∧
    printsOf (set_custom_src o).1 ≠ [] ∧
    Ev.print "Failed to set." ∉ (set_custom_src o).1 := by
  by_cases h1 : 1 < o.capsMin
  · simp only [set_custom_src, get_caps, hok, if_true, h1]
    refine ⟨trivial, trivial, by simp [printsOf], by simp [printsOf], ?_⟩
    intro hmem
    simp only [List.cons_append, List.nil_append, List.mem_cons,
      Ev.print.injEq] at hmem
    rcases hmem with h | h | h | h | h
    · exact Ev.noConfusion h
    · exact ne_prefixed _ _ _ _ (by decide) (by decide) h
    · exact ne_prefixed _ _ _ _ (by decide) (by decide) h
    · exact Ev.noConfusion h
    · simp at h
  · by_cases h2 : o.capsMax < 1
    · simp only [set_custom_src, get_caps, hok, if_true, h1, h2, if_false]
      refine ⟨trivial, trivial, by simp [h1, h2, printsOf], by simp [h1, h2, printsOf], ?_⟩
      intro hmem
      simp only [h1, h2, if_true, if_false, ite_false, List.cons_append,
        List.nil_append, List.mem_cons, Ev.print.injEq] at hmem
      rcases hmem with h | h | h | h | h
      · exact Ev.noConfusion h
      · exact ne_prefixed _ _ _ _ (by decide) (by decide) h
      · exact ne_prefixed _ _ _ _ (by decide) (by decide) h
      · exact Ev.noConfusion h
      · simp at h
    · simp only [set_custom_src, get_caps, hok, if_true, h1, h2, if_false]
      refine ⟨trivial, trivial, by simp [h1, h2, printsOf], by simp [h1, h2, printsOf], ?_⟩
      simp [h1, h2, printsOf]

/-- Witness for C10 at the concrete oracle with failing begin call. -/
theorem set_custom_ignores_begin_result_witness :
    (set_custom_src scSwallow).2 = true ∧
    (set_custom_src { scSwallow with beginOk := true }).2 = true ∧
    printsOf (set_custom_src { scSwallow with beginOk := true }).1
      = printsOf (set_custom_src scSwallow).1 ∧
    printsOf (set_custom_src scSwallow).1 ≠ [] ∧
    Ev.print "Failed to set." ∉ (set_custom_src scSwallow).1 :=
  set_custom_ignores_begin_result scSwallow true (by decide)

/-- C2: when the library load fails, the entry-point resolution fails, or the
resolution query of round k (1 ≤ k ≤ n) fails, `measure` prints exactly the
specific failure message of that failure, reports no average, releases each
successfully loaded library handle exactly once, and returns (no panic is
possible on these paths in either variant). -/
theorem measure_aborts_on_failure (o : MeasureWorld) (n k : Nat) :
    (o.loadOk = false →
      measure_src o n = [Ev.loadLib 0 false, Ev.print "LoadLibrary failed"] ∧
      measure_rac o n = [Ev.loadLib 0 false, Ev.print "LoadLibrary failed"]) ∧
    (o.loadOk = true → o.procOk = false →
      measure_src o n = [Ev.loadLib 0 true, Ev.getProc false,
        Ev.print "Failed to load NtQueryTimerResolution", Ev.freeLib 0] ∧
      measure_rac o n = [Ev.loadLib 0 true, Ev.loadLib 1 true, Ev.getProc false,
        Ev.print "Failed to load NtQueryTimerResolution", Ev.freeLib 0, Ev.freeLib 1]) ∧
    (o.loadOk = true → o.procOk = true → 1 ≤ k → k ≤ n →
      (∀ l, l < k - 1 → o.ntOk l = true) → o.ntOk (k - 1) = false →
      (o.qpfOk = true →
        Ev.print "NtQueryTimerResolution failed" ∈ measure_src o n ∧
        (measure_src o n).countP isAvgEv = 0 ∧
        (measure_src o n).countP (isFreeLibEv 0) = 1) ∧
      (Ev.print "NtQueryTimerResolution failed" ∈ measure_rac o n ∧
        (measure_rac o n).countP isAvgEv = 0 ∧
        (measure_rac o n).countP (isFreeLibEv 0) = 1 ∧
        (measure_rac o n).countP (isFreeLibEv 1) = 1)) := by
  refine ⟨fun h => ?_, fun h1 h2 => ?_, fun hl hp hk1 hkn hpre hfail => ?_⟩
  · constructor <;> simp [measure_src, measure_rac, h]
  · constructor <;> simp [measure_src, measure_rac, h1, h2]
  · have hpre0 : ∀ l, l < k - 1 → o.ntOk (0 + l) = true := by
      intro l hli
      rw [Nat.zero_add]
      exact hpre l hli
    have hfail0 : o.ntOk (0 + (k - 1)) = false := by
      rw [Nat.zero_add]
      exact hfail
    constructor
    · intro hq
      have hr := measureRounds_fail o.ntOk (elapsedMs o o.freq) [Ev.freeLib 0]
        (k - 1) n 0 0 (by omega) hpre0 hfail0
      have hm : measure_src o n =
          Ev.loadLib 0 true :: Ev.getProc true :: Ev.qpf true ::
          ((List.replicate (k - 1) roundEvs).join ++
            ([Ev.ntQuery false, Ev.print "NtQueryTimerResolution failed"] ++
              [Ev.freeLib 0])) := by
        simp [measure_src, hl, hp, hq, hr]
      rw [hm]
      refine ⟨by simp, ?_, ?_⟩ <;>
        simp [List.countP_cons, List.countP_append, countP_join_replicate,
          roundEvs_noFree, roundEvs_noAvg, isAvgEv, isFreeLibEv]
    · have hr := measureRounds_fail o.ntOk (elapsedMs o (if o.qpfOk then o.freq else 0))
        [Ev.freeLib 0, Ev.freeLib 1] (k - 1) n 0 0 (by omega) hpre0 hfail0
      have hm : measure_rac o n =
          Ev.loadLib 0 true :: Ev.loadLib 1 true :: Ev.getProc true :: Ev.qpf o.qpfOk ::
          ((List.replicate (k - 1) roundEvs).join ++
            ([Ev.ntQuery false, Ev.print "NtQueryTimerResolution failed"] ++
              [Ev.freeLib 0, Ev.freeLib 1])) := by
        simp [measure_rac, hl, hp, hr]
      rw [hm]
      refine ⟨by simp, ?_, ?_, ?_⟩ <;>
        simp [List.countP_cons, List.countP_append, countP_join_replicate,
          roundEvs_noFree, roundEvs_noAvg, isAvgEv, isFreeLibEv]

/-- Witness for C2: both the round-1-failure case and the load-failure case
at concrete oracles with a single iteration. -/
theorem measure_aborts_on_failure_witness :
    (Ev.print "NtQueryTimerResolution failed" ∈ measure_src mwNtFail 1 ∧
      (measure_src mwNtFail 1).countP isAvgEv = 0 ∧
      (measure_src mwNtFail 1).countP (isFreeLibEv 0) = 1) ∧
    measure_src { mwNtFail with loadOk := false } 1
      = [Ev.loadLib 0 false, Ev.print "LoadLibrary failed"] := by
  have h := measure_aborts_on_failure mwNtFail 1 1
  have h2 := measure_aborts_on_failure { mwNtFail with loadOk := false } 1 1
  exact ⟨(h.2.2 rfl rfl (by omega) (by omega) (fun l hl => by omega) rfl).1 rfl,
    (h2.1 rfl).1⟩

/-- C4 counterexample: an oracle where the library load, the entry-point
resolution and every per-round resolution query succeed, yet the src variant
of `measure` reports no average at all, because the (unmentioned)
`QueryPerformanceFrequency` check fails. -/
theorem measure_no_average_despite_rounds_ok :
    mwNoQpf.loadOk = true ∧ mwNoQpf.procOk = true ∧
    (∀ l, l < 1 → mwNoQpf.ntOk l = true) ∧
    (measure_src mwNoQpf 1).countP isAvgEv = 0 ∧
    Ev.print "QueryPerformanceFrequency failed" ∈ measure_src mwNoQpf 1 := by
  refine ⟨rfl, rfl, fun l _ => rfl, ?_, ?_⟩ <;> decide

/-- C4 (amended): when the load, the entry-point resolution, in the src
variant additionally the performance-frequency query, and all n per-round
resolution queries succeed, `measure n` runs exactly n sampling rounds and
reports the accumulated total divided by n together with the final
current/min/max resolution values each divided by 10000. -/
theorem measure_reports_mean (o : MeasureWorld) (n : Nat) (hn : 1 ≤ n)
    (hl : o.loadOk = true) (hp : o.procOk = true)
    (hnt : ∀ l, l < n → o.ntOk l = true) :
    (o.qpfOk = true →
      measure_src o n =
        Ev.loadLib 0 true :: Ev.getProc true :: Ev.qpf true ::
        ((List.replicate n roundEvs).join ++
          [Ev.ntQuery o.finalNtOk,
           Ev.printAvg n ((∑ l ∈ Finset.range n, elapsedMs o o.freq l) / (n : ℚ))
             ((o.finalCur : ℚ) / 10000) ((o.finalMin : ℚ) / 10000)
             ((o.finalMax : ℚ) / 10000),
           Ev.freeLib 0]) ∧
      (measure_src o n).countP isSleepEv = n) ∧
    (measure_rac o n =
      Ev.loadLib 0 true :: Ev.loadLib 1 true :: Ev.getProc true :: Ev.qpf o.qpfOk ::
      ((List.replicate n roundEvs).join ++
        [Ev.ntQuery o.finalNtOk,
         Ev.printAvg n
           ((∑ l ∈ Finset.range n,
              elapsedMs o (if o.qpfOk then o.freq else 0) l) / (n : ℚ))
           ((o.finalCur : ℚ) / 10000) ((o.finalMin : ℚ) / 10000)
           ((o.finalMax : ℚ) / 10000),
         Ev.freeLib 0, Ev.freeLib 1]) ∧
     (measure_rac o n).countP isSleepEv = n) := by
  have hnt0 : ∀ l, l < n → o.ntOk (0 + l) = true := by
    intro l hli
    rw [Nat.zero_add]
    exact hnt l hli
  constructor
  · intro hq
    have hr := measureRounds_ok o.ntOk (elapsedMs o o.freq) [Ev.freeLib 0] n 0 0 hnt0
    have hsum : (0 : ℚ) + ∑ l ∈ Finset.range n, elapsedMs o o.freq (0 + l)
        = ∑ l ∈ Finset.range n, elapsedMs o o.freq l := by
      rw [zero_add]
      exact Finset.sum_congr rfl (fun l _ => by rw [Nat.zero_add])
    rw [hsum] at hr
    have hm : measure_src o n =
        Ev.loadLib 0 true :: Ev.getProc true :: Ev.qpf true ::
        ((List.replicate n roundEvs).join ++
          [Ev.ntQuery o.finalNtOk,
           avgReport n (∑ l ∈ Finset.range n, elapsedMs o o.freq l) o,
           Ev.freeLib 0]) := by
      simp [measure_src, hl, hp, hq, hr]
    rw [hm]
    refine ⟨by simp [avgReport], ?_⟩
    simp [List.countP_cons, List.countP_append, countP_join_replicate,
      roundEvs_oneSleep, isSleepEv, avgReport]
  · have hr := measureRounds_ok o.ntOk (elapsedMs o (if o.qpfOk then o.freq else 0))
      [Ev.freeLib 0, Ev.freeLib 1] n 0 0 hnt0
    have hsum : (0 : ℚ) + ∑ l ∈ Finset.range n,
          elapsedMs o (if o.qpfOk then o.freq else 0) (0 + l)
        = ∑ l ∈ Finset.range n, elapsedMs o (if o.qpfOk then o.freq else 0) l := by
      rw [zero_add]
      exact Finset.sum_congr rfl (fun l _ => by rw [Nat.zero_add])
    rw [hsum] at hr
    have hm : measure_rac o n =
        Ev.loadLib 0 true :: Ev.loadLib 1 true :: Ev.getProc true :: Ev.qpf o.qpfOk ::
        ((List.replicate n roundEvs).join ++
          [Ev.ntQuery o.finalNtOk,
           avgReport n (∑ l ∈ Finset.range n,
             elapsedMs o (if o.qpfOk then o.freq else 0) l) o,
           Ev.freeLib 0, Ev.freeLib 1]) := by
      simp [measure_rac, hl, hp, hr]
    rw [hm]
    refine ⟨by simp [avgReport], ?_⟩
    simp [List.countP_cons, List.countP_append, countP_join_replicate,
      roundEvs_oneSleep, isSleepEv, avgReport]

/-- Witness for C4 (amended): with the all-succeeding oracle and two
iterations, both variants run exactly two sampling rounds. -/
theorem measure_reports_mean_witness :
    (measure_src mwAllOk 2).countP isSleepEv = 2 ∧
    (measure_rac mwAllOk 2).countP isSleepEv = 2 := by
  have h := measure_reports_mean mwAllOk 2 (by omega) rfl rfl (fun l _ => rfl)
  exact ⟨(h.1 rfl).2, h.2.2⟩

/-- Helper: the menu dispatch as a chain of trimmed-line comparisons. -/
theorem dispatch_src_eq (line : String) :
    dispatch_src line =
      (if trimStr line = "1" then MenuChoice.setC
       else if trimStr line = "2" then MenuChoice.meas
       else if trimStr line = "3" then MenuChoice.close
       else if trimStr line = "4" then MenuChoice.reset
       else MenuChoice.invalid) := by
  unfold dispatch_src
  split <;> simp_all

/-- C3 counterexample: the line `" 1"` is not `"1"`, yet it dispatches to
`set_custom`, because the code trims the line first. -/
theorem dispatch_trim_counterexample :
    dispatch_src " 1" = MenuChoice.setC ∧ " 1" ≠ "1" := by
  decide

/-- C3 (amended): dispatch is decided by the whitespace-trimmed line —
trimmed `"1"`/`"2"`/`"3"`/`"4"` select the four actions, identically in both
variants, and every other line produces the single invalid-option message and
invokes no OS timer call before the loop returns to the prompt. -/
theorem menu_dispatch_trimmed (line : String) (r : MenuRound) (rs : List MenuRound) :
    (dispatch_src line = MenuChoice.setC ↔ trimStr line = "1") ∧
    (dispatch_src line = MenuChoice.meas ↔ trimStr line = "2") ∧
    (dispatch_src line = MenuChoice.close ↔ trimStr line = "3") ∧
    (dispatch_src line = MenuChoice.reset ↔ trimStr line = "4") ∧
    dispatch_rac line = dispatch_src line ∧
    (r.menuLine = some line → dispatch_src line = MenuChoice.invalid →
      main_loop_src (r :: rs) =
        (menuHeader ++ [Ev.readLine true] ++
          ([Ev.print "Invalid option! Please select 1, 2, 3, or 4."] ++
           [Ev.print "Press Enter to continue...", Ev.readLine r.pacingOk]) ++
          (main_loop_src rs).1,
         (main_loop_src rs).2) ∧
      (∀ e ∈ menuHeader ++ [Ev.readLine true] ++
          ([Ev.print "Invalid option! Please select 1, 2, 3, or 4."] ++
           [Ev.print "Press Enter to continue...", Ev.readLine r.pacingOk]),
        isTimerEv e = false)) ∧
    (r.menuLine = some line → dispatch_rac line = MenuChoice.invalid →
      r.pacingOk = true →
      main_loop_rac (r :: rs) =
        (menuHeader ++ [Ev.readLine true] ++
          ([Ev.print "Invalid option! Please select 1, 2, 3, or 4."] ++
           [Ev.print "Press Enter to continue...", Ev.readLine true]) ++
          (main_loop_rac rs).1,
         (main_loop_rac rs).2)) := by
  have he := dispatch_src_eq line
  refine ⟨?_, ?_, ?_, ?_, by unfold dispatch_rac dispatch_src; rfl,
    fun hline hinv => ⟨?_, ?_⟩, fun hline hinv hp => ?_⟩
  · rw [he]; split_ifs <;> simp_all
  · rw [he]; split_ifs <;> simp_all
  · rw [he]; split_ifs <;> simp_all
  · rw [he]; split_ifs <;> simp_all
  · simp [main_loop_src, hline, hinv]
  · intro e hee
    simp only [menuHeader, List.cons_append, List.nil_append, List.mem_cons,
      List.not_mem_nil, or_false] at hee
    rcases hee with rfl | rfl | rfl | rfl | rfl | rfl | rfl | rfl | rfl | rfl <;> rfl
  · simp [main_loop_rac, hline, hinv, hp]

/-- Witness for C3 (amended): `" 2 "` dispatches to measure, a line led by a
vertical tab (Unicode whitespace beyond ASCII space) dispatches to
`set_custom`, and the loop equation at a concrete invalid round. -/
theorem menu_dispatch_trimmed_witness :
    dispatch_src " 2 " = MenuChoice.meas ∧
    dispatch_src "\u000B1" = MenuChoice.setC ∧
    main_loop_src [rInvalid] =
      (menuHeader ++ [Ev.readLine true] ++
        ([Ev.print "Invalid option! Please select 1, 2, 3, or 4."] ++
         [Ev.print "Press Enter to continue...", Ev.readLine rInvalid.pacingOk]) ++
        (main_loop_src []).1,
       (main_loop_src []).2) := by
  have h1 := menu_dispatch_trimmed " 2 " rInvalid []
  have h2 := menu_dispatch_trimmed "abc" rInvalid []
  have h3 := menu_dispatch_trimmed "\u000B1" rInvalid []
  exact ⟨h1.2.1.mpr (by decide), h3.1.mpr (by decide),
    (h2.2.2.2.2.2.1 rfl (by decide)).1⟩

/-- C6: when the named mutex already exists at startup, both variants print
the already-running prompt and end without reaching any timer call: the run
contains no period request, no capability query and no measurement call. -/
theorem already_running_no_timer (w : StartWorld) (rounds : List MenuRound)
    (h : w.alreadyExists = true) :
    (∀ e ∈ (main_src w rounds).1, isTimerEv e = false) ∧
    (∀ e ∈ (main_rac w rounds).1, isTimerEv e = false) ∧
    Ev.print "Another instance of this application is already running."
      ∈ (main_src w rounds).1 ∧
    Ev.print "Another instance of this application is already running."
      ∈ (main_rac w rounds).1 ∧
    (main_src w rounds).2 = Outcome.exited ∧
    (main_rac w rounds).2 ≠ Outcome.blocked := by
  have hmu : (create_app_mutex_src w).2 = false := by
    cases hw : w.mutexOk <;> simp [create_app_mutex_src, h, hw]
  have hmu2 : (create_app_mutex_rac w).2 = false := by
    simp [create_app_mutex_rac, h]
  have hsrc : main_src w rounds =
      ((create_app_mutex_src w).1 ++ alreadyRunningMsgs ++ [Ev.readLine w.read1Ok],
       Outcome.exited) := by
    simp [main_src, hmu]
  have hrac : main_rac w rounds =
      (if w.read1Ok then
        ((create_app_mutex_rac w).1 ++ alreadyRunningMsgs ++ [Ev.readLine true],
         Outcome.exited)
       else
        ((create_app_mutex_rac w).1 ++ alreadyRunningMsgs ++ [Ev.readLine false],
         Outcome.panicked)) := by
    rcases hr : w.read1Ok <;> simp [main_rac, hmu2, hr]
  refine ⟨?_, ?_, ?_, ?_, ?_, ?_⟩
  · intro e hee
    rw [hsrc] at hee
    simp only [create_app_mutex_src, alreadyRunningMsgs, List.cons_append,
      List.nil_append, List.mem_cons, List.not_mem_nil, or_false] at hee
    rcases hee with rfl | rfl | rfl | rfl | rfl <;> rfl
  · intro e hee
    rw [hrac] at hee
    rcases hr : w.read1Ok <;> rw [hr] at hee <;>
      simp only [Bool.false_eq_true, if_true, if_false, ite_true, ite_false,
        create_app_mutex_rac, alreadyRunningMsgs, List.cons_append,
        List.nil_append, List.mem_cons, List.not_mem_nil, or_false] at hee <;>
      rcases hee with rfl | rfl | rfl | rfl | rfl <;> rfl
  · rw [hsrc]; simp [alreadyRunningMsgs]
  · rw [hrac]; rcases hr : w.read1Ok <;> simp [hr, alreadyRunningMsgs]
  · rw [hsrc]
  · rw [hrac]; rcases hr : w.read1Ok <;> simp [hr]

/-- Witness for C6 at a concrete already-running startup oracle. -/
theorem already_running_no_timer_witness :
    (∀ e ∈ (main_src wAlready []).1, isTimerEv e = false) ∧
    (∀ e ∈ (main_rac wAlready []).1, isTimerEv e = false) ∧
    Ev.print "Another instance of this application is already running."
      ∈ (main_src wAlready []).1 ∧
    Ev.print "Another instance of this application is already running."
      ∈ (main_rac wAlready []).1 ∧
    (main_src wAlready []).2 = Outcome.exited ∧
    (main_rac wAlready []).2 ≠ Outcome.blocked :=
  already_running_no_timer wAlready [] rfl

/-- C7 counterexample: in the racpro variant a failed read at the pacing
prompt after a reset action terminates the program (panic), although the
failure is not at the top-level menu prompt. -/
theorem pacing_read_failure_panics :
    rPaceFail.menuLine = some "4" ∧ rPaceFail.pacingOk = false ∧
    (main_rac wOk [rPaceFail]).2 = Outcome.panicked := by
  refine ⟨rfl, rfl, ?_⟩
  decide

/-- C7 (amended): a read failure at the top-level menu prompt terminates
both variants; in the src variant every pacing and startup read failure is
ignored (a run whose menu reads all succeed never panics, whatever the
pacing and startup reads do), while in the racpro variant the pacing and
startup reads are unwrapped, so a read failure at the already-running
prompt, at the administrator prompt, or at any pacing prompt also
terminates the program. -/
theorem read_failure_policy (w : StartWorld) (rs : List MenuRound)
    (r : MenuRound) (line : String) :
    ((∀ r2 ∈ rs, (r2.menuLine).isSome) →
      (main_src w rs).2 ≠ Outcome.panicked) ∧
    (w.mutexOk = true → w.alreadyExists = false → w.openOk = true →
      w.queryOk = true → w.elevatedBit = true → r.menuLine = none →
      (main_src w (r :: rs)).2 = Outcome.panicked) ∧
    (w.alreadyExists = false → w.openOk = true → w.queryOk = true →
      w.elevatedBit = true → r.menuLine = none →
      (main_rac w (r :: rs)).2 = Outcome.panicked) ∧
    (w.alreadyExists = true → w.read1Ok = false →
      (main_rac w rs).2 = Outcome.panicked) ∧
    (w.alreadyExists = false → w.openOk = true → w.queryOk = true →
      w.elevatedBit = false → w.read2Ok = false →
      (main_rac w rs).2 = Outcome.panicked) ∧
    (w.alreadyExists = false → w.openOk = true → w.queryOk = true →
      w.elevatedBit = true → r.menuLine = some line →
      dispatch_rac line ≠ MenuChoice.close → r.pacingOk = false →
      (main_rac w (r :: rs)).2 = Outcome.panicked) ∧
    (r.menuLine = some line → dispatch_src line ≠ MenuChoice.close →
      (main_loop_src (r :: rs)).2 = (main_loop_src rs).2) := by
  refine ⟨?_, ?_, ?_, ?_, ?_, ?_, ?_⟩
  · intro hall
    have hloop : ∀ rs2 : List MenuRound, (∀ r2 ∈ rs2, (r2.menuLine).isSome) →
        (main_loop_src rs2).2 ≠ Outcome.panicked := by
      intro rs2
      induction rs2 with
      | nil => intro _; simp [main_loop_src]
      | cons a t ih =>
          intro h2
          have ha := h2 a (List.mem_cons_self a t)
          rcases hline : a.menuLine with _ | line2
          · rw [hline] at ha; simp at ha
          · have ht := fun r2 hr2 => h2 r2 (List.mem_cons_of_mem a hr2)
            rcases hd : dispatch_src line2 <;>
              simp only [main_loop_src, hline, hd] <;>
              first
                | exact ih ht
                | simp
    cases hmu : (create_app_mutex_src w).2
    · simp [main_src, hmu]
    · cases hadm : (is_running_as_admin_src w).2
      · simp [main_src, hmu, hadm]
      · have hl := hloop rs hall
        cases hlp : (main_loop_src rs).2 <;>
          simp_all [main_src, hmu, hadm, hlp]
  · intro h1 h2 h3 h4 h5 h6
    have hmu : (create_app_mutex_src w).2 = true := by
      simp [create_app_mutex_src, h1, h2]
    have hadm : (is_running_as_admin_src w).2 = true := by
      simp [is_running_as_admin_src, h3, h4, h5]
    have hlp : (main_loop_src (r :: rs)).2 = Outcome.panicked := by
      simp [main_loop_src, h6]
    simp [main_src, hmu, hadm, hlp]
  · intro h2 h3 h4 h5 h6
    have hmu : (create_app_mutex_rac w).2 = true := by
      simp [create_app_mutex_rac, h2]
    have hadm : (is_running_as_admin_rac w).2 = true := by
      simp [is_running_as_admin_rac, h3, h4, h5]
    have hlp : (main_loop_rac (r :: rs)).2 = Outcome.panicked := by
      simp [main_loop_rac, h6]
    simp [main_rac, hmu, hadm, hlp]
  · intro h1 h2
    have hmu : (create_app_mutex_rac w).2 = false := by
      simp [create_app_mutex_rac, h1]
    simp [main_rac, hmu, h2]
  · intro h2 h3 h4 h5 h6
    have hmu : (create_app_mutex_rac w).2 = true := by
      simp [create_app_mutex_rac, h2]
    have hadm : (is_running_as_admin_rac w).2 = false := by
      simp [is_running_as_admin_rac, h3, h4, h5]
    simp [main_rac, hmu, hadm, h6]
  · intro h2 h3 h4 h5 h6 hd hp
    have hmu : (create_app_mutex_rac w).2 = true := by
      simp [create_app_mutex_rac, h2]
    have hadm : (is_running_as_admin_rac w).2 = true := by
      simp [is_running_as_admin_rac, h3, h4, h5]
    have hlp : (main_loop_rac (r :: rs)).2 = Outcome.panicked := by
      rcases hdd : dispatch_rac line
      case close => exact absurd hdd hd
      all_goals simp [main_loop_rac, h6, hdd, hp]
    simp [main_rac, hmu, hadm, hlp]
  · intro h6 hd
    rcases hdisp : dispatch_src line
    case close => exact absurd hdisp hd
    all_goals simp [main_loop_src, h6, hdisp]

/-- Witness for C7 (amended): concrete runs for each termination clause and
the absence of panic in a src run. -/
theorem read_failure_policy_witness :
    (main_src wOk []).2 ≠ Outcome.panicked ∧
    (main_src wOk [rMenuFail]).2 = Outcome.panicked ∧
    (main_rac wOk [rMenuFail]).2 = Outcome.panicked ∧
    (main_rac { wAlready with read1Ok := false } []).2 = Outcome.panicked ∧
    (main_rac { wOk with elevatedBit := false, read2Ok := false } []).2
      = Outcome.panicked ∧
    (main_rac wOk [rPaceFail]).2 = Outcome.panicked := by
  have h0 := read_failure_policy wOk [] rPaceFail "4"
  have h1 := read_failure_policy wOk [] rMenuFail "4"
  have h2 := read_failure_policy { wAlready with read1Ok := false } [] rMenuFail "4"
  have h3 := read_failure_policy { wOk with elevatedBit := false, read2Ok := false }
    [] rMenuFail "4"
  refine ⟨h0.1 (fun r2 hr2 => absurd hr2 (List.not_mem_nil r2)), ?_, ?_, ?_, ?_, ?_⟩
  · exact h1.2.1 rfl rfl rfl rfl rfl rfl
  · exact h1.2.2.1 rfl rfl rfl rfl rfl
  · exact h2.2.2.2.1 rfl rfl
  · exact h3.2.2.2.2.1 rfl rfl rfl rfl rfl
  · exact h0.2.2.2.2.2.1 rfl rfl rfl rfl rfl (by decide) rfl

/-- C9 counterexample: on a fully successful startup with no further input,
the two variants already perform different OS call sequences — the src
variant closes the token handle after the elevation query, the racpro
variant does not. -/
theorem variants_not_equivalent :
    (main_src wOk []).1 ≠ (main_rac wOk []).1 := by
  decide

/-- C9 (amended): the two variants agree on `set_custom`,
`reset_to_default`, the menu dispatch and the elevation verdict, but are not
trace-equivalent: whenever the token opens, the src variant's elevation
check performs one more OS call (`CloseHandle`) than the racpro variant's
(they further differ in `measure` and in pacing-read failure handling). -/
theorem variants_agreement_and_difference (o : SetCustomWorld) (r : ResetWorld)
    (w : StartWorld) (line : String) :
    set_custom_rac o = set_custom_src o ∧
    reset_to_default_rac r = reset_to_default_src r ∧
    dispatch_rac line = dispatch_src line ∧
    (is_running_as_admin_rac w).2 = (is_running_as_admin_src w).2 ∧
    (w.openOk = true →
      (is_running_as_admin_src w).1
        = (is_running_as_admin_rac w).1 ++ [Ev.closeHandle]) := by
  refine ⟨by unfold set_custom_rac set_custom_src; rfl,
    by unfold reset_to_default_rac reset_to_default_src; rfl,
    by unfold dispatch_rac dispatch_src; rfl, ?_, ?_⟩
  · cases hw : w.openOk <;>
      simp [is_running_as_admin_src, is_running_as_admin_rac, hw]
  · intro h
    simp [is_running_as_admin_src, is_running_as_admin_rac, h]

/-- Witness for C9 (amended) at concrete inputs. -/
theorem variants_agreement_witness :
    (is_running_as_admin_src wOk).1
      = (is_running_as_admin_rac wOk).1 ++ [Ev.closeHandle] ∧
    set_custom_rac scSwallow = set_custom_src scSwallow := by
  have h := variants_agreement_and_difference scSwallow ⟨true, true⟩ wOk "1"
  exact ⟨h.2.2.2.2 rfl, h.1⟩
